import Mathlib

/-!
Verification development for the Darwin-Connector unified trading-bridge
launcher.  The embedded code is:

* the Python launcher (src/unnamed/part_002): `is_mt5_running`, `launch_mt5`,
  `is_bridge_running` and `main`;
* the batch supervisor script (src/Unified_Trading_Bridge.bat): service start
  sequence, browser open, and the taskkill teardown ("stopAll").

Python side effects are made explicit: the world supplies the outcome of the
one socket bind, the OS process list and the state of config.json, and the
functions return the observable actions they perform as a trace.
-/

namespace UnifiedBridge

/-- A reason a `socket.bind` call can raise `socket.error` (`OSError`). -/
inductive SockErr
| addrInUse
| accessDenied
| other (code : Nat)
deriving DecidableEq, Repr

/-- Outcome of `sock.bind(("127.0.0.1", 64000))`: `holder` says whether some
other process currently has port 64000 bound, and `extraErr` lets the bind
fail for any unrelated reason.  `none` means the bind succeeded. -/
def bindResult (holder : Bool) (extraErr : Option SockErr) : Option SockErr :=
  if holder then some SockErr.addrInUse else extraErr

/-- Embedding of `is_bridge_running` (src/unnamed/part_002 lines 56-65).
The function binds port 64000, and on success closes the socket at once and
returns `False`; any `socket.error` yields `True`.  The result is the pair
(returned boolean, whether port 64000 is still occupied by anyone after the
call returns).  Because of the `sock.close()` on the success path, and because
a failed bind never acquired the port, the occupancy after the call is exactly
the external occupancy `holder` in both branches. -/
def is_bridge_running (holder : Bool) (extraErr : Option SockErr) : Bool × Bool :=
  match bindResult holder extraErr with
  | some _ => (true, holder)
  | none => (false, holder)

/-- Embedding of `is_mt5_running` (src/unnamed/part_002 lines 22-30): the OS
process list is a list of image names, `none` standing for an entry whose name
is unreadable (`NoSuchProcess` / `AccessDenied`, skipped by the code). -/
def is_mt5_running (procs : List (Option String)) : Bool :=
  procs.any fun p => p == some "terminal64.exe" || p == some "terminal.exe"

/-- The state of config.json as `launch_mt5` observes it.  `fields path onDisk`
is the case where `open`, `json.load` and the `.get` chain all succeed: `path`
is `config.get("mt5", {}).get("path", "")` (so a missing `mt5` object or a
missing `path` field yields the default `""`), and `onDisk` is
`os.path.exists(path)`. -/
inductive ConfigRead
| openError
| parseError
| mt5NotDict
| pathNotString
| fields (path : String) (onDisk : Bool)
deriving DecidableEq, Repr

/-- A Python exception class relevant to `launch_mt5`. -/
inductive PyExn
| ioError
| jsonError
| attrError
| typeError
deriving DecidableEq, Repr

/-- An observable action performed by the Python launcher. -/
inductive Action
| openBrowser (url : String)
| spawnDetached (path : String)
| sleep (secs : Nat)
| spawnConsole (script : String)
deriving DecidableEq, Repr

/-- The dashboard URL hard-coded in both launchers. -/
def dashboardURL : String := "http://localhost:8502"

/-- The `try` block of `launch_mt5` (src/unnamed/part_002 lines 38-52):
reads config.json, resolves `mt5.path`, and spawns the terminal as a detached
process when the path is non-empty and exists on disk.  Exceptions raised
inside the block are returned as `Except.error`. -/
def launch_mt5_body (c : ConfigRead) : Except PyExn (Bool × List Action) :=
  match c with
  | ConfigRead.openError => Except.error PyExn.ioError
  | ConfigRead.parseError => Except.error PyExn.jsonError
  | ConfigRead.mt5NotDict => Except.error PyExn.attrError
  | ConfigRead.pathNotString => Except.error PyExn.typeError
  | ConfigRead.fields path onDisk =>
      if path != "" && onDisk then Except.ok (true, [Action.spawnDetached path])
      else Except.ok (false, [])

/-- The function `launch_mt5` as its caller sees it: the `try` block wrapped in the
`except Exception: pass` handler followed by `return False`.  An
`Except.error` here would mean an exception escaping to the caller. -/
def launch_mt5_run (c : ConfigRead) : Except PyExn (Bool × List Action) :=
  match launch_mt5_body c with
  | Except.ok r => Except.ok r
  | Except.error _ => Except.ok (false, [])

/-- Embedding of `launch_mt5` (src/unnamed/part_002 lines 32-54): the returned
boolean and the actions performed. -/
def launch_mt5 (c : ConfigRead) : Bool × List Action :=
  match launch_mt5_body c with
  | Except.ok r => r
  | Except.error _ => (false, [])

/-- The world the Python launcher runs in. -/
structure World where
  lockHolder : Bool
  lockBindErr : Option SockErr
  procNames : List (Option String)
  config : ConfigRead
deriving DecidableEq, Repr

/-- Embedding of `main` (src/unnamed/part_002 lines 67-94) as the trace of
actions it performs.  If `is_bridge_running()` is true, it only opens the
dashboard and returns; otherwise, when MT5 is absent it calls `launch_mt5()`
and sleeps 10 seconds, then spawns the `main.py` supervisor in a new console,
sleeps 8 seconds, and opens the dashboard. -/
def pymain (w : World) : List Action :=
  if (is_bridge_running w.lockHolder w.lockBindErr).1 then
    [Action.openBrowser dashboardURL]
  else
    (if is_mt5_running w.procNames then []
     else (launch_mt5 w.config).2 ++ [Action.sleep 10]) ++
    [Action.spawnConsole "main.py", Action.sleep 8, Action.openBrowser dashboardURL]

/-- An observable event of the batch script. -/
inductive BatEvent
| killImage (image : String)
| wait (secs : Nat)
| gatewayMissingWarning
| startWindow (title : String) (cmd : String)
| pauseKey
| browserOpen (url : String)
| killTitle (pat : String)
deriving DecidableEq, Repr

/-- The environment the batch script runs in.  `serviceFailed` records
whether some service started by the script entered a Failed state during the
run; the script itself never reads any service status (the `start` commands
return immediately and nothing later queries the children), so this fact
cannot influence its control flow or exit code. -/
structure BatEnv where
  pythonFound : Bool
  ibGateway : Bool
  serviceFailed : Bool
deriving DecidableEq, Repr

/-- Embedding of src/Unified_Trading_Bridge.bat as (event trace, exit code).
If Python is missing the script exits 1 before starting anything.  Otherwise
it kills stray streamlit processes, warns when IB Gateway is absent, starts
the three services in declared order with `timeout` delays, waits for a key
press, opens the browser, waits again, and tears down the three service
windows by title (each `taskkill` has its output and failures discarded by
`>nul 2>&1`), finishing with exit code 0. -/
def batRun (env : BatEnv) : List BatEvent × Nat :=
  if env.pythonFound then
    ([BatEvent.killImage "streamlit.exe", BatEvent.wait 1] ++
     (if env.ibGateway then [] else [BatEvent.gatewayMissingWarning]) ++
     [BatEvent.startWindow "IBKR Bridge" "python src/ibkr/bridge.py",
      BatEvent.wait 2,
      BatEvent.startWindow "MT5 Bridge" "python src/mt5/bridge.py",
      BatEvent.wait 2,
      BatEvent.startWindow "Dashboard" "streamlit run dashboard/app.py --server.port 8502",
      BatEvent.wait 3,
      BatEvent.pauseKey,
      BatEvent.browserOpen dashboardURL,
      BatEvent.pauseKey,
      BatEvent.killTitle "IBKR Bridge",
      BatEvent.killTitle "MT5 Bridge",
      BatEvent.killTitle "Dashboard"], 0)
  else ([], 1)

/-- The service-start titles of a batch trace, in order. -/
def startsOf (t : List BatEvent) : List String :=
  t.filterMap fun e =>
    match e with
    | BatEvent.startWindow n _ => some n
    | _ => none

/-- Accumulates, for each `startWindow` event, the total `wait` time since the
previous `startWindow` (or since the beginning of the trace for the first). -/
def interDelaysAux : List BatEvent → Nat → List Nat
  | [], _ => []
  | BatEvent.startWindow _ _ :: rest, a => a :: interDelaysAux rest 0
  | BatEvent.wait s :: rest, a => interDelaysAux rest (a + s)
  | _ :: rest, a => interDelaysAux rest a

/-- The wait time elapsing between each pair of consecutive service starts. -/
def interStartDelays (t : List BatEvent) : List Nat :=
  (interDelaysAux t 0).drop 1

/-- True when no `browserOpen` event occurs before the first start of the
window titled `dash`. -/
def browserAfterStartOf (dash : String) : List BatEvent → Bool
  | [] => true
  | BatEvent.browserOpen _ :: _ => false
  | BatEvent.startWindow t _ :: rest =>
      if t == dash then true else browserAfterStartOf dash rest
  | _ :: rest => browserAfterStartOf dash rest

/-- True when no `openBrowser` action occurs before the first `spawnConsole`
(the launch of the `main.py` supervisor, which starts the dashboard). -/
def browserAfterSupervisor : List Action → Bool
  | [] => true
  | Action.openBrowser _ :: _ => false
  | Action.spawnConsole _ :: _ => true
  | _ :: rest => browserAfterSupervisor rest

/-- Matching of `WINDOWTITLE eq "pat*"`: the window title starts with `pat`. -/
def matchTitle (pat w : String) : Bool := w.startsWith pat

/-- The error a `taskkill /F /FI "WINDOWTITLE eq pat*"` can raise: it fails
when no task matched the filter. -/
inductive KillErr
| noProcessMatched
deriving DecidableEq, Repr

/-- The fallible taskkill call over the list of currently open window
titles. -/
def taskkillByTitle (pat : String) (ws : List String) : Except KillErr (List String) :=
  if ws.any (matchTitle pat) then
    Except.ok (ws.filter fun w => !matchTitle pat w)
  else Except.error KillErr.noProcessMatched

/-- The script runs each taskkill with `>nul 2>&1`: a failure (no matching
process) is swallowed and the window state is left unchanged. -/
def swallowKill (pat : String) (ws : List String) : List String :=
  match taskkillByTitle pat ws with
  | Except.ok ws2 => ws2
  | Except.error _ => ws

/-- The teardown epilogue of the batch script (lines 76-79): taskkill the
three service window titles in turn, failures swallowed. -/
def stopAll (ws : List String) : List String :=
  swallowKill "Dashboard" (swallowKill "MT5 Bridge" (swallowKill "IBKR Bridge" ws))

/-- True when the title matches one of the three service-window patterns the
teardown kills. -/
def serviceWindowTitle (w : String) : Bool :=
  matchTitle "IBKR Bridge" w || matchTitle "MT5 Bridge" w || matchTitle "Dashboard" w

/-- A concrete healthy environment for the batch script: Python present,
IB Gateway detected, no service failure. -/
def goodEnv : BatEnv :=
  { pythonFound := true, ibGateway := true, serviceFailed := false }

/-- A world whose lock-port bind fails with address-in-use. -/
def lockedWorld : World :=
  { lockHolder := true, lockBindErr := some SockErr.addrInUse,
    procNames := [], config := ConfigRead.openError }

/-- A fresh world where MT5 is already running. -/
def mt5PresentWorld : World :=
  { lockHolder := false, lockBindErr := none,
    procNames := [some "chrome.exe", some "terminal64.exe"],
    config := ConfigRead.fields "C:/mt5/terminal64.exe" true }

/-- A fresh world where MT5 is absent and the configured path is valid. -/
def mt5AbsentWorld : World :=
  { lockHolder := false, lockBindErr := none,
    procNames := [some "chrome.exe", none],
    config := ConfigRead.fields "C:/mt5/terminal64.exe" true }

/-- A fresh world where config.json resolves to an empty MT5 path. -/
def noPathWorld : World :=
  { lockHolder := false, lockBindErr := none,
    procNames := [], config := ConfigRead.fields "" true }

lemma swallowKill_eq_filter (pat : String) (ws : List String) :
    swallowKill pat ws = ws.filter fun w => !matchTitle pat w := by
  by_cases hany : ws.any (matchTitle pat) = true
  · simp only [swallowKill, taskkillByTitle, hany, if_true]
  · simp only [swallowKill, taskkillByTitle, hany, if_false]
    rw [Bool.not_eq_true, List.any_eq_false] at hany
    exact (List.filter_eq_self.mpr fun w hw => by
      simp only [Bool.not_eq_eq_eq_not, Bool.not_true]
      exact Bool.eq_false_iff.mpr (hany w hw)).symm

lemma mem_stopAll {w : String} {ws : List String} (h : w ∈ stopAll ws) :
    w ∈ ws ∧ serviceWindowTitle w = false := by
  unfold stopAll at h
  rw [swallowKill_eq_filter, swallowKill_eq_filter, swallowKill_eq_filter] at h
  rw [List.mem_filter] at h
  obtain ⟨h2, hDash⟩ := h
  rw [List.mem_filter] at h2
  obtain ⟨h1, hMT5⟩ := h2
  rw [List.mem_filter] at h1
  obtain ⟨hmem, hIBKR⟩ := h1
  refine ⟨hmem, ?_⟩
  unfold serviceWindowTitle
  rw [Bool.not_eq_eq_eq_not, Bool.not_true] at hDash hMT5 hIBKR
  rw [hDash, hMT5, hIBKR]
  rfl

lemma launch_actions_cases (c : ConfigRead) :
    (launch_mt5 c).2 = [] ∨ ∃ q, (launch_mt5 c).2 = [Action.spawnDetached q] := by
  cases c
  case openError => exact Or.inl rfl
  case parseError => exact Or.inl rfl
  case mt5NotDict => exact Or.inl rfl
  case pathNotString => exact Or.inl rfl
  case fields path onDisk =>
    by_cases hc : (path != "" && onDisk) = true
    · exact Or.inr ⟨path, by simp [launch_mt5, launch_mt5_body, hc]⟩
    · rw [Bool.not_eq_true] at hc
      exact Or.inl (by simp [launch_mt5, launch_mt5_body, hc])

lemma browserAfterSupervisor_pymain (w : World)
    (hbr : (is_bridge_running w.lockHolder w.lockBindErr).1 = false) :
    browserAfterSupervisor (pymain w) = true := by
  cases hm : is_mt5_running w.procNames
  · rcases launch_actions_cases w.config with h0 | ⟨q, h0⟩ <;>
      simp [pymain, hbr, hm, h0, browserAfterSupervisor]
  · simp [pymain, hbr, hm, browserAfterSupervisor]

/-- C1.  The spec claims that of concurrent callers of the instance-lock
acquire operation (`is_bridge_running` probing port 64000) at most one
obtains the token, every other caller observing AlreadyRunning until the
token is released, the successful acquirer holding the lock port open for the
supervisor's lifetime.  Counterexample: with nobody holding port 64000, a
first call succeeds (returns `false`, i.e. acquires), yet it holds no port
afterwards, and a second call probing the resulting port state also succeeds
instead of observing AlreadyRunning — because `is_bridge_running` closes its
socket before returning. -/
theorem C1_lock_counterexample :
    (is_bridge_running false none).1 = false ∧
    (is_bridge_running false none).2 = false ∧
    (is_bridge_running (is_bridge_running false none).2 none).1 = false := by
  decide

/-- C1 amended: `is_bridge_running` reports AlreadyRunning exactly when the
bind of port 64000 fails (some other process holds the port, or the bind
raises for any other reason), and the probe itself never retains the port:
the occupancy of port 64000 after the call equals the external occupancy
before it.  Exclusion therefore holds only while a separate process keeps
the lock port bound; the probing launcher holds nothing. -/
theorem C1_lock_amended (h : Bool) (e : Option SockErr) :
    ((is_bridge_running h e).1 = true ↔ bindResult h e ≠ none) ∧
    (is_bridge_running h e).2 = h := by
  cases h <;> cases e <;> simp [is_bridge_running, bindResult]

/-- C2.  The spec claims the supervisor exits non-zero when some service
entered Failed during ServicePhase and was never recovered.  Counterexample:
in the batch script with Python present and a started service having failed,
the stop-all epilogue still exits with status 0 — the script never observes
any service status. -/
theorem C2_exit_counterexample :
    (batRun { pythonFound := true, ibGateway := true, serviceFailed := true }).2 = 0 := by
  rfl

/-- C2 amended: the batch supervisor exits 0 on every run that reaches the
service phase and its stop-all epilogue, regardless of whether any service
entered Failed; the only non-zero exit (status 1) happens before any service
is started, when Python is not found. -/
theorem C2_exit_amended (env : BatEnv) :
    (batRun env).2 = if env.pythonFound then 0 else 1 := by
  obtain ⟨p, g, f⟩ := env
  cases p <;> rfl

/-- C3: whenever the bind of the lock port fails, for any raised reason, the
failure is reported as AlreadyRunning (`is_bridge_running` returns true, not
a distinguished I/O error), and `main` then performs only the browser-open
action to the dashboard URL — no dependency launch, no sleep, no supervisor
spawn — before returning. -/
theorem C3_bind_failure_attach (w : World) (r : SockErr)
    (hb : w.lockBindErr = some r) :
    (is_bridge_running w.lockHolder w.lockBindErr).1 = true ∧
    pymain w = [Action.openBrowser dashboardURL] := by
  have h1 : (is_bridge_running w.lockHolder w.lockBindErr).1 = true := by
    rw [hb]; cases hL : w.lockHolder <;> simp [is_bridge_running, bindResult]
  exact ⟨h1, by simp [pymain, h1]⟩

/-- Witness for C3 at a concrete world whose bind fails with address-in-use. -/
theorem C3_witness :
    (is_bridge_running lockedWorld.lockHolder lockedWorld.lockBindErr).1 = true ∧
    pymain lockedWorld = [Action.openBrowser dashboardURL] :=
  C3_bind_failure_attach lockedWorld SockErr.addrInUse rfl

/-- C4: (1) when a process named terminal64.exe or terminal.exe is already in
the process list, `main` never performs a detached dependency spawn; (2) in a
fresh run with the dependency absent and a valid configured path, `main`
spawns the dependency detached, then sleeps the 10-second ready delay before
the dependent services are started via the `main.py` supervisor spawn. -/
theorem C4_dependency_launch :
    (∀ w : World, is_mt5_running w.procNames = true →
      ∀ p : String, Action.spawnDetached p ∉ pymain w) ∧
    (∀ w : World, ∀ q : String, w.lockHolder = false → w.lockBindErr = none →
      is_mt5_running w.procNames = false →
      w.config = ConfigRead.fields q true → q ≠ "" →
      pymain w = [Action.spawnDetached q, Action.sleep 10,
        Action.spawnConsole "main.py", Action.sleep 8,
        Action.openBrowser dashboardURL]) := by
  constructor
  · intro w hm p
    by_cases hbr : (is_bridge_running w.lockHolder w.lockBindErr).1 = true
    · simp [pymain, hbr]
    · rw [Bool.not_eq_true] at hbr
      simp [pymain, hbr, hm]
  · intro w q hl hb hm hc hq
    have hbr : (is_bridge_running w.lockHolder w.lockBindErr).1 = false := by
      rw [hl, hb]; rfl
    have hlm : (launch_mt5 w.config).2 = [Action.spawnDetached q] := by
      rw [hc]
      simp [launch_mt5, launch_mt5_body, bne_iff_ne, hq]
    simp [pymain, hbr, hm, hlm]

/-- Witness for C4: MT5 present means no detached spawn; MT5 absent with a
valid path gives spawn, ready delay, then the supervisor start. -/
theorem C4_witness :
    Action.spawnDetached "C:/mt5/terminal64.exe" ∉ pymain mt5PresentWorld ∧
    pymain mt5AbsentWorld = [Action.spawnDetached "C:/mt5/terminal64.exe",
      Action.sleep 10, Action.spawnConsole "main.py", Action.sleep 8,
      Action.openBrowser dashboardURL] :=
  ⟨C4_dependency_launch.1 mt5PresentWorld (by decide) "C:/mt5/terminal64.exe",
   C4_dependency_launch.2 mt5AbsentWorld "C:/mt5/terminal64.exe" rfl rfl
     (by decide) rfl (by decide)⟩

/-- C5: with the configured MT5 path missing (empty) or not existing on disk,
`launch_mt5` returns false having spawned nothing, and `main` still proceeds:
it sleeps the ready delay, starts the `main.py` supervisor (which starts all
configured services) and opens the dashboard — the missing dependency is
non-fatal. -/
theorem C5_missing_path_nonfatal (w : World) (p : String) (d : Bool)
    (hl : w.lockHolder = false) (hb : w.lockBindErr = none)
    (hm : is_mt5_running w.procNames = false)
    (hc : w.config = ConfigRead.fields p d) (hmiss : p = "" ∨ d = false) :
    (launch_mt5 w.config).1 = false ∧
    pymain w = [Action.sleep 10, Action.spawnConsole "main.py", Action.sleep 8,
      Action.openBrowser dashboardURL] := by
  have hcond : (p != "" && d) = false := by
    rcases hmiss with h1 | h1 <;> subst h1 <;> simp
  have hlm : launch_mt5 w.config = (false, []) := by
    rw [hc]; simp [launch_mt5, launch_mt5_body, hcond]
  have hbr : (is_bridge_running w.lockHolder w.lockBindErr).1 = false := by
    rw [hl, hb]; rfl
  refine ⟨by rw [hlm], ?_⟩
  simp [pymain, hbr, hm, hlm]

/-- Witness for C5 at a concrete world whose config resolves to an empty
MT5 path. -/
theorem C5_witness :
    (launch_mt5 noPathWorld.config).1 = false ∧
    pymain noPathWorld = [Action.sleep 10, Action.spawnConsole "main.py",
      Action.sleep 8, Action.openBrowser dashboardURL] :=
  C5_missing_path_nonfatal noPathWorld "" true rfl rfl rfl rfl (Or.inl rfl)

/-- C6: in every batch run reaching the service phase (Python found), the
services begin in the fixed declared order — IBKR Bridge, then MT5 Bridge,
then Dashboard — and the wait elapsing between consecutive starts is at
least the declared minimum inter-start delay of 2 seconds. -/
theorem C6_service_order (env : BatEnv) (hp : env.pythonFound = true) :
    startsOf (batRun env).1 = ["IBKR Bridge", "MT5 Bridge", "Dashboard"] ∧
    interStartDelays (batRun env).1 = [2, 2] ∧
    ∀ d ∈ interStartDelays (batRun env).1, 2 ≤ d := by
  obtain ⟨p, g, f⟩ := env
  cases p
  · simp at hp
  · cases g <;> cases f <;> exact ⟨rfl, rfl, by decide⟩

/-- Witness for C6 at a concrete environment. -/
theorem C6_witness :
    startsOf (batRun goodEnv).1 = ["IBKR Bridge", "MT5 Bridge", "Dashboard"] ∧
    interStartDelays (batRun goodEnv).1 = [2, 2] ∧
    ∀ d ∈ interStartDelays (batRun goodEnv).1, 2 ≤ d :=
  C6_service_order goodEnv rfl

/-- C7: in a fresh-start run, the browser open to the dashboard URL happens
only after the dashboard has been started, never before: in the batch trace
no browser-open event precedes the start of the Dashboard window (and the
browser-open event does occur); in the Python launcher with the lock port
free, no browser open precedes the spawn of the `main.py` supervisor that
starts the dashboard. -/
theorem C7_browser_after_dashboard (env : BatEnv) (w : World)
    (hp : env.pythonFound = true) (hl : w.lockHolder = false)
    (hb : w.lockBindErr = none) :
    browserAfterStartOf "Dashboard" (batRun env).1 = true ∧
    BatEvent.browserOpen dashboardURL ∈ (batRun env).1 ∧
    browserAfterSupervisor (pymain w) = true := by
  have hbr : (is_bridge_running w.lockHolder w.lockBindErr).1 = false := by
    rw [hl, hb]; rfl
  obtain ⟨p, g, f⟩ := env
  cases p
  · simp at hp
  · refine ⟨?_, ?_, browserAfterSupervisor_pymain w hbr⟩
    · cases g <;> rfl
    · cases g <;> cases f <;> decide

/-- Witness for C7 at a concrete environment and world. -/
theorem C7_witness :
    browserAfterStartOf "Dashboard" (batRun goodEnv).1 = true ∧
    BatEvent.browserOpen dashboardURL ∈ (batRun goodEnv).1 ∧
    browserAfterSupervisor (pymain mt5AbsentWorld) = true :=
  C7_browser_after_dashboard goodEnv mt5AbsentWorld rfl rfl rfl

/-- C8: the taskkill teardown is idempotent — running `stopAll` on the state
it produced changes nothing — and after it no window matching a service
title pattern remains (no dangling handles); invoking the three taskkills
again, or after the services already exited, makes each fail with
no-process-matched, a failure the script swallows, so no error surfaces. -/
theorem C8_stopAll_idempotent (ws : List String) :
    stopAll (stopAll ws) = stopAll ws ∧
    (∀ w ∈ stopAll ws, serviceWindowTitle w = false) ∧
    taskkillByTitle "IBKR Bridge" (stopAll ws) =
      Except.error KillErr.noProcessMatched ∧
    taskkillByTitle "MT5 Bridge" (stopAll ws) =
      Except.error KillErr.noProcessMatched ∧
    taskkillByTitle "Dashboard" (stopAll ws) =
      Except.error KillErr.noProcessMatched := by
  have hmem : ∀ w ∈ stopAll ws, serviceWindowTitle w = false :=
    fun w hw => (mem_stopAll hw).2
  have e1 : ∀ w ∈ stopAll ws, matchTitle "IBKR Bridge" w = false := by
    intro w hw
    have hsw := hmem w hw
    unfold serviceWindowTitle at hsw
    cases hI : matchTitle "IBKR Bridge" w
    · rfl
    · rw [hI] at hsw; simp at hsw
  have e2 : ∀ w ∈ stopAll ws, matchTitle "MT5 Bridge" w = false := by
    intro w hw
    have hsw := hmem w hw
    unfold serviceWindowTitle at hsw
    cases hI : matchTitle "MT5 Bridge" w
    · rfl
    · rw [hI] at hsw; simp at hsw
  have e3 : ∀ w ∈ stopAll ws, matchTitle "Dashboard" w = false := by
    intro w hw
    have hsw := hmem w hw
    unfold serviceWindowTitle at hsw
    cases hI : matchTitle "Dashboard" w
    · rfl
    · rw [hI] at hsw; simp at hsw
  have hfalse : ∀ pat : String, (∀ w ∈ stopAll ws, matchTitle pat w = false) →
      (stopAll ws).any (matchTitle pat) = false := by
    intro pat hall
    rw [List.any_eq_false]
    intro x hx
    rw [hall x hx]
    exact Bool.false_ne_true
  have k1 : taskkillByTitle "IBKR Bridge" (stopAll ws) =
      Except.error KillErr.noProcessMatched := by
    simp [taskkillByTitle, hfalse _ e1]
  have k2 : taskkillByTitle "MT5 Bridge" (stopAll ws) =
      Except.error KillErr.noProcessMatched := by
    simp [taskkillByTitle, hfalse _ e2]
  have k3 : taskkillByTitle "Dashboard" (stopAll ws) =
      Except.error KillErr.noProcessMatched := by
    simp [taskkillByTitle, hfalse _ e3]
  have f1 : List.filter (fun w => !matchTitle "IBKR Bridge" w) (stopAll ws) =
      stopAll ws :=
    List.filter_eq_self.mpr fun w hw => by rw [e1 w hw]; rfl
  have f2 : List.filter (fun w => !matchTitle "MT5 Bridge" w) (stopAll ws) =
      stopAll ws :=
    List.filter_eq_self.mpr fun w hw => by rw [e2 w hw]; rfl
  have f3 : List.filter (fun w => !matchTitle "Dashboard" w) (stopAll ws) =
      stopAll ws :=
    List.filter_eq_self.mpr fun w hw => by rw [e3 w hw]; rfl
  have idem : stopAll (stopAll ws) = stopAll ws := by
    show swallowKill "Dashboard" (swallowKill "MT5 Bridge"
      (swallowKill "IBKR Bridge" (stopAll ws))) = stopAll ws
    rw [swallowKill_eq_filter, swallowKill_eq_filter, swallowKill_eq_filter,
      f1, f2, f3]
  exact ⟨idem, hmem, k1, k2, k3⟩

/-- C9: `is_bridge_running` releases the port-64000 binding before returning
— the port occupancy after any call equals the external occupancy before it
— and with no other holder a call returns false, as does a second call made
on the resulting port state. -/
theorem C9_probe_releases (h : Bool) (e : Option SockErr) :
    (is_bridge_running h e).2 = h ∧
    (is_bridge_running false none).1 = false ∧
    (is_bridge_running (is_bridge_running false none).2 none).1 = false := by
  refine ⟨?_, rfl, rfl⟩
  cases h <;> cases e <;> rfl

/-- C10: `launch_mt5` is total over every observable state of config.json —
file unreadable, malformed JSON, a non-dict `mt5` value, a non-string path,
a missing or empty path, or a path absent from disk — the try/except wrapper
always delivers `Except.ok` of the returned boolean to the caller; no
exception escapes. -/
theorem C10_launch_mt5_total (c : ConfigRead) :
    launch_mt5_run c = Except.ok (launch_mt5 c) := by
  cases c
  case fields path onDisk =>
    by_cases hc : (path != "" && onDisk) = true <;>
      simp [launch_mt5_run, launch_mt5, launch_mt5_body, hc]
  all_goals rfl

end UnifiedBridge
